import Mathlib

/-!
# Verification of the libobmm transaction layer

Shallow embedding of `libobmm.c` and `vendor_adaptor.c` (userspace client of
the OBMM fabric-attached memory manager).  External effects — the control
device (`/dev/obmm` handle and ioctl transactions), the sysfs topology
attributes, allocation success and the errno perturbation of `free` — are
supplied by an explicit oracle environment `Env`; each modelled function
returns its result, the final `errno`, the mutated out-parameters, and a
trace of the external interactions it performed, in order.

Pointer parameters that the C code checks against NULL are modelled as
`Option`; machine integers as `Nat`/`Int` with explicit truncation where
width matters.
-/

namespace Obmm

/-- Linux `EINVAL` (asm-generic). -/
def EINVAL : Nat := 22

/-- Linux `ENODEV` (asm-generic). -/
def ENODEV : Nat := 19

/-- Linux `ENOMEM` (asm-generic). -/
def ENOMEM : Nat := 12

/-- `OBMM_INVALID_MEMID` from `libobmm.h`: the reserved invalid sentinel. -/
def OBMM_INVALID_MEMID : Nat := 0

/-- External interactions a call can perform, in program order:
obtaining the device handle, an ioctl transaction, a controller-slot
topology scan (`get_ubc_by_eid`), and releasing the vendor payload. -/
inductive Ev
  | getFd
  | ioctl
  | topoScan
  | freeV
deriving DecidableEq, Repr

/-- `struct obmm_mem_desc` (libobmm.h).  `seid`/`deid` are 16 little-endian
bytes; `priv` is the caller's private byte area of length `priv_len`. -/
structure MemDesc where
  addr : Nat
  length : Nat
  seid : List Nat
  deid : List Nat
  tokenid : Nat
  scna : Nat
  dcna : Nat
  priv_len : Nat
  priv : List Nat
deriving DecidableEq, Repr

/-- `struct obmm_preimport_info` (libobmm.h). -/
structure PreimportInfo where
  pa : Nat
  length : Nat
  base_dist : Int
  numa_id : Int
  seid : List Nat
  deid : List Nat
  scna : Nat
  dcna : Nat
  priv_len : Nat
  priv : List Nat
deriving DecidableEq, Repr

/-- The two bits of the import `flags` word that `obmm_import` inspects:
`OBMM_IMPORT_FLAG_NUMA_REMOTE` and `OBMM_IMPORT_FLAG_PREIMPORT`.  Their bit
positions live in the external kernel header `<ub/obmm.h>`; since the code
only ever tests these two bits, the flags word is modelled as the pair of
tested bits (remaining bits are opaque pass-through to the device). -/
structure ImportFlags where
  numaRemote : Bool
  preimport : Bool
deriving DecidableEq, Repr

/-- Oracle environment: outcome of every external interaction a single call
can make.  `slotEid i = none` models `get_ubc_path` failing for controller
slot `i` (glob miss); `some v` is the `read_int_from_file` result for the
slot's `eid` attribute (`v < 0` = open/read/parse/overflow failure).
`slotCna`, `slotUmmuMap`, `slotNuma` are the attribute-read results for a
located slot.  `fdResult`/`fdErrno` model `obmm_dev_get_fd`;
`ioctlRet`/`ioctlErrno` the one device transaction of the call; `freeErrno`
whether `free` perturbs `errno` (`some e` = it leaves `errno = e`);
`devXxx` are the reply fields the device writes into the command. -/
structure Env where
  slotEid : Nat → Option Int
  slotCna : Nat → Int
  slotUmmuMap : Nat → Int
  slotNuma : Nat → Int
  fdResult : Int
  fdErrno : Nat
  ioctlRet : Int
  ioctlErrno : Nat
  allocOk : Bool
  maxVendorLen : Nat
  freeErrno : Option Nat
  devMemId : Nat
  devUba : Nat
  devTokenid : Nat
  devNumaId : Int
  devQueryMemId : Nat
  devQueryOffset : Nat
  devQueryPa : Nat

/-- `uint8_t sysfs_eid[EID_SIZE] = {}; *(unsigned int*)sysfs_eid = v;` —
a 32-bit value zero-extended into a 16-byte little-endian buffer. -/
def zeroExtend16 (v : Nat) : List Nat :=
  (List.range 16).map (fun j => if j < 4 then (v >>> (8 * j)) % 256 else 0)

/-- Result of the controller-slot scan `get_ubc_by_eid`. -/
inductive ScanRes
  | found (i : Nat)
  | readError
  | notFound
deriving DecidableEq, Repr

/-- The loop body of `get_ubc_by_eid` from slot `i` with `fuel` slots left:
a slot whose path glob fails is skipped; a located slot whose `eid`
attribute read fails (negative) aborts the scan; a located slot whose
parsed `eid`, zero-extended to 16 bytes, equals the requested id
byte-for-byte is the match. -/
def scanFrom (slots : Nat → Option Int) (eid : List Nat) : Nat → Nat → ScanRes
  | 0, _ => .notFound
  | fuel + 1, i =>
    match slots i with
    | none => scanFrom slots eid fuel (i + 1)
    | some v =>
      if v < 0 then .readError
      else if zeroExtend16 (v.toNat % 2 ^ 32) = eid then .found i
      else scanFrom slots eid fuel (i + 1)

/-- `get_ubc_by_eid` (vendor_adaptor.c): scan slots `0 ≤ i < MAX_CONTROLLERS
= 8` in ascending order. -/
def get_ubc_by_eid (slots : Nat → Option Int) (eid : List Nat) : ScanRes :=
  scanFrom slots eid 8 0

/-- `errno` after `get_ubc_by_eid`: both failure exits assign `ENODEV`;
a successful match leaves `errno` as it was. -/
def get_ubc_by_eid_errno (slots : Nat → Option Int) (eid : List Nat) (e0 : Nat) : Nat :=
  match get_ubc_by_eid slots eid with
  | .found _ => e0
  | _ => ENODEV

/-- Slot `j` is passed over by the scan: its path glob fails, or its `eid`
attribute parses to a non-negative value whose zero-extension differs from
the requested id. -/
def slotSkip (slots : Nat → Option Int) (eid : List Nat) (j : Nat) : Prop :=
  slots j = none ∨ ∃ v, slots j = some v ∧ 0 ≤ v ∧ zeroExtend16 (v.toNat % 2 ^ 32) ≠ eid

/-- Slot `j` matches: located, attribute parses non-negative, and the
zero-extended value equals the requested id byte-for-byte. -/
def slotHit (slots : Nat → Option Int) (eid : List Nat) (j : Nat) : Prop :=
  ∃ v, slots j = some v ∧ 0 ≤ v ∧ zeroExtend16 (v.toNat % 2 ^ 32) = eid

/-- Slot `j` is located but its `eid` attribute read/parse fails. -/
def slotBad (slots : Nat → Option Int) (j : Nat) : Prop :=
  ∃ v, slots j = some v ∧ v < 0

/-- `struct ub_bus_ctl_node` (vendor_adaptor.c). -/
structure UbBusCtlNode where
  ummu_mapping : Int
  numa_id : Int
  valid : Bool
deriving DecidableEq, Repr

/-- `get_ctl_by_eid` (vendor_adaptor.c): resolve the slot, then read its
`ummu_map` and `numa` attributes; any failure leaves `valid = false` with
the fields written so far (the node starts zero-initialised). -/
def get_ctl_by_eid (env : Env) (eid : List Nat) : UbBusCtlNode :=
  match get_ubc_by_eid env.slotEid eid with
  | .found i =>
    if env.slotUmmuMap i < 0 then ⟨env.slotUmmuMap i, 0, false⟩
    else if env.slotNuma i < 0 then ⟨env.slotUmmuMap i, env.slotNuma i, false⟩
    else ⟨env.slotUmmuMap i, env.slotNuma i, true⟩
  | _ => ⟨0, 0, false⟩

/-- `get_primary_cna_by_eid` (vendor_adaptor.c): resolve the slot, read its
`primary_cna` attribute.  `none` covers every failure exit; each of them
returns `-1` having set `errno = ENODEV` (inside `get_ubc_by_eid` for a
failed scan, explicitly for an unreadable attribute). -/
def get_primary_cna_by_eid (env : Env) (eid : List Nat) : Option Nat :=
  match get_ubc_by_eid env.slotEid eid with
  | .found i => if env.slotCna i < 0 then none else some (env.slotCna i).toNat
  | _ => none

/-- `enum hisi_ummu_tdev_version`: `HISI_TDEV_INFO_V1 = 0`. -/
def HISI_TDEV_INFO_V1 : Nat := 0

/-- `sizeof(struct hisi_ummu_tdev_info)` on the LP64 target: 4-byte enum +
4 padding + union { 8-byte `unsigned long` mask, `bool`, padding } = 24. -/
def sizeof_hisi_ummu_tdev_info : Nat := 24

/-- The vendor payload `struct hisi_ummu_tdev_info`; the `v1` union member
is inlined.  `ummu_idx_mask` is the 64-bit `unsigned long` field. -/
structure HisiTdevInfo where
  ver : Nat
  on_chip : Bool
  ummu_idx_mask : Nat
deriving DecidableEq, Repr

/-- `init_vendor_info` (vendor_adaptor.c): allocate, check the encoded size
against `OBMM_MAX_VENDOR_LEN` (a constant of the external `<ub/obmm.h>`,
here the oracle's `maxVendorLen`), then fill version V1, `on_chip = true`
and the mask `1 << ummu_mapping` stored into the 64-bit field.  Returns the
payload and its length, or the errno code the C function returns. -/
def init_vendor_info (ummu_mapping : Nat) (allocOk : Bool) (maxVendorLen : Nat) :
    Except Nat (HisiTdevInfo × Nat) :=
  if allocOk = false then .error ENOMEM
  else if maxVendorLen < sizeof_hisi_ummu_tdev_info then .error EINVAL
  else .ok (⟨HISI_TDEV_INFO_V1, true, (1 <<< ummu_mapping) % 2 ^ 64⟩,
            sizeof_hisi_ummu_tdev_info)

/-- `g_invalid_eid`: 16 zero bytes. -/
def zeroEid : List Nat := List.replicate 16 0

/-- Result of `vendor_adapt_export`: the returned errno code (`0` = ok),
the payload and length stored through `vendor_info`/`vendor_len`, the NUMA
id stored through `numa`, and the trace of topology scans performed. -/
structure VendorExportRes where
  ret : Nat
  payload : Option (HisiTdevInfo × Nat)
  numaOut : Option Int
  trace : List Ev
deriving Repr

/-- `vendor_adapt_export` (vendor_adaptor.c): reject an all-zero
destination eid before any topology resolution; resolve the controller
node; build the vendor payload; output the node's NUMA id. -/
def vendor_adapt_export (env : Env) (desc : MemDesc) : VendorExportRes :=
  if desc.deid = zeroEid then ⟨EINVAL, none, none, []⟩
  else
    match (get_ctl_by_eid env desc.deid).valid with
    | false => ⟨ENODEV, none, none, [Ev.topoScan]⟩
    | true =>
      match init_vendor_info (get_ctl_by_eid env desc.deid).ummu_mapping.toNat
              env.allocOk env.maxVendorLen with
      | .error e => ⟨e, none, none, [Ev.topoScan]⟩
      | .ok p => ⟨0, some p, some (get_ctl_by_eid env desc.deid).numa_id, [Ev.topoScan]⟩

/-- `errno` after `free_vendor_info`: `free` may or may not perturb it. -/
def freeErrnoEff (env : Env) (e : Nat) : Nat :=
  match env.freeErrno with
  | some x => x
  | none => e

/-- Output of the two export entry points: returned mem_id, final `errno`,
the caller's descriptor after the call (`none` when a NULL descriptor was
passed), and the interaction trace. -/
structure ExportOut where
  memid : Nat
  errno : Nat
  descOut : Option MemDesc
  trace : List Ev
deriving Repr

/-- `obmm_export_useraddr` (libobmm.c): NULL check, device handle, vendor
adaptation, one ioctl, then `free_vendor_info` — with **no** save/restore
of `errno` around the release.  On success writes `addr`, `length`,
`tokenid` and zeroes `scna`/`dcna` in the descriptor. -/
def obmm_export_useraddr (env : Env) (pid : Int) (va : Nat) (length : Nat)
    (flags : Nat) (desc? : Option MemDesc) (e0 : Nat) : ExportOut :=
  match desc? with
  | none => ⟨OBMM_INVALID_MEMID, EINVAL, none, []⟩
  | some d =>
    if env.fdResult < 0 then ⟨OBMM_INVALID_MEMID, env.fdErrno, some d, [Ev.getFd]⟩
    else if (vendor_adapt_export env d).ret ≠ 0 then
      ⟨OBMM_INVALID_MEMID, (vendor_adapt_export env d).ret, some d,
        Ev.getFd :: (vendor_adapt_export env d).trace⟩
    else if env.ioctlRet < 0 then
      ⟨OBMM_INVALID_MEMID, freeErrnoEff env env.ioctlErrno, some d,
        Ev.getFd :: (vendor_adapt_export env d).trace ++ [Ev.ioctl, Ev.freeV]⟩
    else
      ⟨env.devMemId, freeErrnoEff env env.fdErrno,
        some { d with addr := env.devUba, length := length,
                      tokenid := env.devTokenid, scna := 0, dcna := 0 },
        Ev.getFd :: (vendor_adapt_export env d).trace ++ [Ev.ioctl, Ev.freeV]⟩

/-- `obmm_export` (libobmm.c): NULL checks, device handle, vendor
adaptation, one ioctl; `errsv = errno` is captured before
`free_vendor_info` and restored after it.  On success the descriptor's
`length` is the sum of the per-NUMA lengths (64-bit accumulation),
`addr`/`tokenid` come from the device reply, `scna`/`dcna` are zeroed. -/
def obmm_export (env : Env) (lens? : Option (List Nat)) (flags : Nat)
    (desc? : Option MemDesc) (e0 : Nat) : ExportOut :=
  match lens?, desc? with
  | none, d => ⟨OBMM_INVALID_MEMID, EINVAL, d, []⟩
  | some _, none => ⟨OBMM_INVALID_MEMID, EINVAL, none, []⟩
  | some lens, some d =>
    if env.fdResult < 0 then ⟨OBMM_INVALID_MEMID, env.fdErrno, some d, [Ev.getFd]⟩
    else if (vendor_adapt_export env d).ret ≠ 0 then
      ⟨OBMM_INVALID_MEMID, (vendor_adapt_export env d).ret, some d,
        Ev.getFd :: (vendor_adapt_export env d).trace⟩
    else if env.ioctlRet < 0 then
      ⟨OBMM_INVALID_MEMID, env.ioctlErrno, some d,
        Ev.getFd :: (vendor_adapt_export env d).trace ++ [Ev.ioctl, Ev.freeV]⟩
    else
      ⟨env.devMemId, env.fdErrno,
        some { d with addr := env.devUba, tokenid := env.devTokenid,
                      scna := 0, dcna := 0, length := lens.sum % 2 ^ 64 },
        Ev.getFd :: (vendor_adapt_export env d).trace ++ [Ev.ioctl, Ev.freeV]⟩

/-- Output of `obmm_import`: returned mem_id, final `errno`, the content of
the caller's `numa` out-pointer after the call (`none` = NULL pointer), and
the interaction trace. -/
structure ImportOut where
  memid : Nat
  errno : Nat
  numaOut : Option Int
  trace : List Ev
deriving Repr

/-- `obmm_import` (libobmm.c): NULL check; local base-distance check when
NUMA-remote is set and preimport unset; device handle; channel validation
via `vendor_fixup_import_cmd` (failure already set `errno = ENODEV`
inside); one ioctl with `errsv` save/restore around the (no-op) cleanup;
on success the `numa` out-pointer receives the device's reply. -/
def obmm_import (env : Env) (desc? : Option MemDesc) (flags : ImportFlags)
    (base_dist : Int) (numa0 : Option Int) (e0 : Nat) : ImportOut :=
  match desc? with
  | none => ⟨OBMM_INVALID_MEMID, EINVAL, numa0, []⟩
  | some d =>
    if (flags.numaRemote = true ∧ flags.preimport = false) ∧
        (base_dist < 0 ∨ base_dist > 255) then
      ⟨OBMM_INVALID_MEMID, EINVAL, numa0, []⟩
    else if env.fdResult < 0 then
      ⟨OBMM_INVALID_MEMID, env.fdErrno, numa0, [Ev.getFd]⟩
    else
      match get_primary_cna_by_eid env d.seid with
      | none => ⟨OBMM_INVALID_MEMID, ENODEV, numa0, [Ev.getFd, Ev.topoScan]⟩
      | some cna =>
        if cna ≠ d.scna then
          ⟨OBMM_INVALID_MEMID, ENODEV, numa0, [Ev.getFd, Ev.topoScan]⟩
        else if env.ioctlRet < 0 then
          ⟨OBMM_INVALID_MEMID, env.ioctlErrno, numa0, [Ev.getFd, Ev.topoScan, Ev.ioctl]⟩
        else
          ⟨env.devMemId, env.fdErrno,
            (match numa0 with | none => none | some _ => some env.devNumaId),
            [Ev.getFd, Ev.topoScan, Ev.ioctl]⟩

/-- Output of the preimport entry points: returned int, final `errno`, the
caller's `obmm_preimport_info` after the call, and the interaction trace. -/
structure PreimportOut where
  ret : Int
  errno : Nat
  infoOut : Option PreimportInfo
  trace : List Ev
deriving Repr

/-- `obmm_preimport` (libobmm.c): NULL check; **unconditional** base-dist
range check; device handle; channel validation via
`vendor_fixup_preimport_cmd`; one ioctl with `errsv` save/restore; on
success `numa_id` is updated from the device reply. -/
def obmm_preimport (env : Env) (info? : Option PreimportInfo) (flags : Nat)
    (e0 : Nat) : PreimportOut :=
  match info? with
  | none => ⟨-1, EINVAL, none, []⟩
  | some info =>
    if info.base_dist < 0 ∨ info.base_dist > 255 then ⟨-1, EINVAL, some info, []⟩
    else if env.fdResult < 0 then ⟨env.fdResult, env.fdErrno, some info, [Ev.getFd]⟩
    else
      match get_primary_cna_by_eid env info.seid with
      | none => ⟨-1, ENODEV, some info, [Ev.getFd, Ev.topoScan]⟩
      | some cna =>
        if cna ≠ info.scna then ⟨-1, ENODEV, some info, [Ev.getFd, Ev.topoScan]⟩
        else if env.ioctlRet < 0 then
          ⟨env.ioctlRet, env.ioctlErrno, some info, [Ev.getFd, Ev.topoScan, Ev.ioctl]⟩
        else
          ⟨0, env.fdErrno, some { info with numa_id := env.devNumaId },
            [Ev.getFd, Ev.topoScan, Ev.ioctl]⟩

/-- `obmm_unpreimport` (libobmm.c): NULL check, device handle, then the
ioctl directly — no base-distance check, no channel validation, no
cleanup.  The preimport info is never written. -/
def obmm_unpreimport (env : Env) (info? : Option PreimportInfo) (flags : Nat)
    (e0 : Nat) : PreimportOut :=
  match info? with
  | none => ⟨-1, EINVAL, none, []⟩
  | some info =>
    if env.fdResult < 0 then ⟨env.fdResult, env.fdErrno, some info, [Ev.getFd]⟩
    else if env.ioctlRet < 0 then
      ⟨env.ioctlRet, env.ioctlErrno, some info, [Ev.getFd, Ev.ioctl]⟩
    else ⟨env.ioctlRet, env.fdErrno, some info, [Ev.getFd, Ev.ioctl]⟩

/-- Output of the int-returning teardown entry points. -/
structure IntOut where
  ret : Int
  errno : Nat
  trace : List Ev
deriving Repr

/-- `obmm_unexport` (libobmm.c): the invalid-sentinel mem_id is rejected
with `EINVAL` before the device handle is even obtained. -/
def obmm_unexport (env : Env) (id : Nat) (flags : Nat) (e0 : Nat) : IntOut :=
  if id = OBMM_INVALID_MEMID then ⟨-1, EINVAL, []⟩
  else if env.fdResult < 0 then ⟨env.fdResult, env.fdErrno, [Ev.getFd]⟩
  else if env.ioctlRet < 0 then ⟨env.ioctlRet, env.ioctlErrno, [Ev.getFd, Ev.ioctl]⟩
  else ⟨env.ioctlRet, env.fdErrno, [Ev.getFd, Ev.ioctl]⟩

/-- `obmm_unimport` (libobmm.c): same shape as `obmm_unexport` over the
unimport command. -/
def obmm_unimport (env : Env) (id : Nat) (flags : Nat) (e0 : Nat) : IntOut :=
  if id = OBMM_INVALID_MEMID then ⟨-1, EINVAL, []⟩
  else if env.fdResult < 0 then ⟨env.fdResult, env.fdErrno, [Ev.getFd]⟩
  else if env.ioctlRet < 0 then ⟨env.ioctlRet, env.ioctlErrno, [Ev.getFd, Ev.ioctl]⟩
  else ⟨env.ioctlRet, env.fdErrno, [Ev.getFd, Ev.ioctl]⟩

/-- Output of `obmm_query_memid_by_pa`: returned int, final `errno`, the
contents of the `id` and `offset` out-pointers after the call (`none` =
NULL pointer), and the trace. -/
structure QueryIdOut where
  ret : Int
  errno : Nat
  idOut : Option Nat
  offOut : Option Nat
  trace : List Ev
deriving Repr

/-- `obmm_query_memid_by_pa` (libobmm.c): device handle, one ioctl; the
out-pointers are written only after a successful ioctl, and only when
non-NULL. -/
def obmm_query_memid_by_pa (env : Env) (pa : Nat) (id? : Option Nat)
    (off? : Option Nat) (e0 : Nat) : QueryIdOut :=
  if env.fdResult < 0 then ⟨env.fdResult, env.fdErrno, id?, off?, [Ev.getFd]⟩
  else if env.ioctlRet < 0 then
    ⟨env.ioctlRet, env.ioctlErrno, id?, off?, [Ev.getFd, Ev.ioctl]⟩
  else
    ⟨0, env.fdErrno, id?.map (fun _ => env.devQueryMemId),
      off?.map (fun _ => env.devQueryOffset), [Ev.getFd, Ev.ioctl]⟩

/-- Output of `obmm_query_pa_by_memid`. -/
structure QueryPaOut where
  ret : Int
  errno : Nat
  paOut : Option Nat
  trace : List Ev
deriving Repr

/-- `obmm_query_pa_by_memid` (libobmm.c): device handle, one ioctl; the
`pa` out-pointer is written only after a successful ioctl, and only when
non-NULL. -/
def obmm_query_pa_by_memid (env : Env) (id : Nat) (offset : Nat)
    (pa? : Option Nat) (e0 : Nat) : QueryPaOut :=
  if env.fdResult < 0 then ⟨env.fdResult, env.fdErrno, pa?, [Ev.getFd]⟩
  else if env.ioctlRet < 0 then
    ⟨env.ioctlRet, env.ioctlErrno, pa?, [Ev.getFd, Ev.ioctl]⟩
  else ⟨0, env.fdErrno, pa?.map (fun _ => env.devQueryPa), [Ev.getFd, Ev.ioctl]⟩

/-! ## Concrete inputs used by witnesses and counterexamples -/

/-- A slot table: slot 0 absent, slot 1 present with eid value 9,
slot 2 present with eid value 6, the rest absent. -/
def slots0 : Nat → Option Int :=
  fun i => if i = 1 then some 9 else if i = 2 then some 6 else none

/-- The 16-byte endpoint id whose first four bytes encode 6. -/
def eid1 : List Nat := zeroExtend16 6

/-- An environment in which every external interaction succeeds: the
device opens (fd 4), slot 2 resolves `eid1` with `ummu_map = 3`,
`numa = 1`, `primary_cna = 7`, the ioctl succeeds, and the device replies
mem_id 42, uba 4096, tokenid 9, numa 1. -/
def envOK : Env :=
  { slotEid := slots0
    slotCna := fun _ => 7
    slotUmmuMap := fun _ => 3
    slotNuma := fun _ => 1
    fdResult := 4
    fdErrno := 0
    ioctlRet := 0
    ioctlErrno := 0
    allocOk := true
    maxVendorLen := 64
    freeErrno := none
    devMemId := 42
    devUba := 4096
    devTokenid := 9
    devNumaId := 1
    devQueryMemId := 11
    devQueryOffset := 12
    devQueryPa := 13 }

/-- Like `envOK` but the device transaction fails with errno 5 (EIO) and
`free` leaves `errno = 12` behind. -/
def envFreeClobber : Env :=
  { envOK with ioctlRet := -1, ioctlErrno := 5, freeErrno := some 12 }

/-- Like `envOK` but the device transaction fails with errno 5. -/
def envIoctlFail : Env :=
  { envOK with ioctlRet := -1, ioctlErrno := 5 }

/-- A well-formed descriptor resolving to slot 2, with recorded source
channel 5 and destination channel 6. -/
def desc5 : MemDesc :=
  { addr := 100, length := 200, seid := eid1, deid := eid1, tokenid := 3,
    scna := 5, dcna := 6, priv_len := 2, priv := [8, 9] }

/-- A preimport descriptor with out-of-range base distance −1 and the
correct recorded channel 7. -/
def infoBd : PreimportInfo :=
  { pa := 0, length := 4096, base_dist := -1, numa_id := -1, seid := eid1,
    deid := eid1, scna := 7, dcna := 0, priv_len := 0, priv := [] }

/-- A preimport descriptor with valid base distance but a recorded channel
(9) that disagrees with the live one (7). -/
def infoMismatch : PreimportInfo := { infoBd with base_dist := 0, scna := 9 }

/-- A well-formed import descriptor whose recorded source channel 7
matches the live one. -/
def descMatch : MemDesc := { desc5 with scna := 7 }

/-! ## Lemmas about the controller-slot scan -/

theorem scanFrom_found (slots : Nat → Option Int) (eid : List Nat) :
    ∀ fuel i k, scanFrom slots eid fuel i = .found k →
      i ≤ k ∧ k < i + fuel ∧ slotHit slots eid k ∧
        ∀ j, i ≤ j → j < k → slotSkip slots eid j := by
  intro fuel
  induction fuel with
  | zero => intro i k h; simp [scanFrom] at h
  | succ f ih =>
    intro i k h
    rw [scanFrom] at h
    cases hs : slots i with
    | none =>
      simp only [hs] at h
      obtain ⟨h1, h2, h3, h4⟩ := ih (i + 1) k h
      refine ⟨by omega, by omega, h3, ?_⟩
      intro j hij hjk
      rcases Nat.eq_or_lt_of_le hij with rfl | hlt
      · exact Or.inl hs
      · exact h4 j hlt hjk
    | some v =>
      simp only [hs] at h
      by_cases hv : v < 0
      · rw [if_pos hv] at h; exact absurd h (by simp)
      · by_cases hm : zeroExtend16 (v.toNat % 2 ^ 32) = eid
        · rw [if_neg hv, if_pos hm] at h
          cases h
          exact ⟨le_refl i, by omega, ⟨v, hs, not_lt.mp hv, hm⟩, fun j hij hjk => by omega⟩
        · rw [if_neg hv, if_neg hm] at h
          obtain ⟨h1, h2, h3, h4⟩ := ih (i + 1) k h
          refine ⟨by omega, by omega, h3, ?_⟩
          intro j hij hjk
          rcases Nat.eq_or_lt_of_le hij with rfl | hlt
          · exact Or.inr ⟨v, hs, not_lt.mp hv, hm⟩
          · exact h4 j hlt hjk

theorem scanFrom_skip (slots : Nat → Option Int) (eid : List Nat) :
    ∀ fuel i, (∀ j, i ≤ j → j < i + fuel → slotSkip slots eid j) →
      scanFrom slots eid fuel i = .notFound := by
  intro fuel
  induction fuel with
  | zero => intro i _; rfl
  | succ f ih =>
    intro i hsk
    rw [scanFrom]
    rcases hsk i (le_refl i) (by omega) with h0 | ⟨v, hv, hnn, hne⟩
    · simp only [h0]
      exact ih (i + 1) (fun j h1 h2 => hsk j (by omega) (by omega))
    · simp only [hv]
      rw [if_neg (not_lt.mpr hnn), if_neg hne]
      exact ih (i + 1) (fun j h1 h2 => hsk j (by omega) (by omega))

theorem scanFrom_bad (slots : Nat → Option Int) (eid : List Nat) :
    ∀ fuel i k, i ≤ k → k < i + fuel → slotBad slots k →
      (∀ j, i ≤ j → j < k → slotSkip slots eid j) →
      scanFrom slots eid fuel i = .readError := by
  intro fuel
  induction fuel with
  | zero => intro i k h1 h2 _ _; omega
  | succ f ih =>
    intro i k h1 h2 hbad hsk
    rw [scanFrom]
    rcases Nat.eq_or_lt_of_le h1 with rfl | hlt
    · obtain ⟨v, hv, hvneg⟩ := hbad
      simp only [hv]
      rw [if_pos hvneg]
    · rcases hsk i (le_refl i) hlt with h0 | ⟨v, hv, hnn, hne⟩
      · simp only [h0]
        exact ih (i + 1) k hlt (by omega) hbad (fun j ha hb => hsk j (by omega) hb)
      · simp only [hv]
        rw [if_neg (not_lt.mpr hnn), if_neg hne]
        exact ih (i + 1) k hlt (by omega) hbad (fun j ha hb => hsk j (by omega) hb)

theorem scanFrom_congr (slots slots2 : Nat → Option Int) (eid : List Nat) :
    ∀ fuel i, (∀ j, i ≤ j → j < i + fuel → slots2 j = slots j) →
      scanFrom slots2 eid fuel i = scanFrom slots eid fuel i := by
  intro fuel
  induction fuel with
  | zero => intro i _; rfl
  | succ f ih =>
    intro i hag
    have heq : slots2 i = slots i := hag i (le_refl i) (by omega)
    cases hs : slots i with
    | none =>
      simp only [scanFrom, heq, hs]
      exact ih (i + 1) (fun j h1 h2 => hag j (by omega) (by omega))
    | some v =>
      simp only [scanFrom, heq, hs]
      by_cases hv : v < 0
      · rw [if_pos hv, if_pos hv]
      · by_cases hm : zeroExtend16 (v.toNat % 2 ^ 32) = eid
        · rw [if_neg hv, if_neg hv, if_pos hm, if_pos hm]
        · rw [if_neg hv, if_neg hv, if_neg hm, if_neg hm]
          exact ih (i + 1) (fun j h1 h2 => hag j (by omega) (by omega))

/-- An all-zero destination eid is rejected by `vendor_adapt_export`
before any topology scan. -/
theorem vendor_adapt_export_zero_deid (env : Env) (d : MemDesc)
    (hz : d.deid = zeroEid) :
    vendor_adapt_export env d = ⟨EINVAL, none, none, []⟩ := by
  unfold vendor_adapt_export
  rw [if_pos hz]

/-! ## Claim theorems -/

/-- C5: `get_ubc_by_eid` scans controller slots 0 through 7 (a fixed upper
bound of 8 candidates) in ascending order; a slot matches when its `eid`
attribute, parsed as an integer and zero-extended into a 16-byte buffer,
equals the requested endpoint id byte-for-byte; the first matching slot
wins; if no slot matches, resolution fails NotFound with `errno = ENODEV`;
an unparsable attribute on a located slot is a read error aborting the
scan. -/
theorem C5_topology_scan_resolution (slots : Nat → Option Int) (eid : List Nat) :
    (∀ k, get_ubc_by_eid slots eid = .found k →
        k < 8 ∧ slotHit slots eid k ∧ ∀ j, j < k → slotSkip slots eid j)
    ∧ ((∀ j, j < 8 → slotSkip slots eid j) →
        get_ubc_by_eid slots eid = .notFound
        ∧ ∀ e0, get_ubc_by_eid_errno slots eid e0 = ENODEV)
    ∧ (∀ k, k < 8 → slotBad slots k → (∀ j, j < k → slotSkip slots eid j) →
        get_ubc_by_eid slots eid = .readError)
    ∧ (∀ slots2 : Nat → Option Int, (∀ j, j < 8 → slots2 j = slots j) →
        get_ubc_by_eid slots2 eid = get_ubc_by_eid slots eid) := by
  refine ⟨?_, ?_, ?_, ?_⟩
  · intro k h
    obtain ⟨h1, h2, h3, h4⟩ := scanFrom_found slots eid 8 0 k h
    exact ⟨by omega, h3, fun j hj => h4 j (Nat.zero_le j) hj⟩
  · intro hsk
    have hnf : get_ubc_by_eid slots eid = .notFound :=
      scanFrom_skip slots eid 8 0 (fun j h1 h2 => hsk j (by omega))
    refine ⟨hnf, fun e0 => ?_⟩
    simp only [get_ubc_by_eid_errno, hnf]
  · intro k hk hbad hsk
    exact scanFrom_bad slots eid 8 0 k (Nat.zero_le k) (by omega) hbad
      (fun j h1 h2 => hsk j h2)
  · intro slots2 hag
    exact scanFrom_congr slots slots2 eid 8 0 (fun j h1 h2 => hag j (by omega))

/-- Witness for C5 at a concrete slot table: slot 0 absent, slot 1
non-matching, slot 2 matching — the scan finds slot 2 and every earlier
slot is skipped. -/
theorem C5_topology_scan_resolution_witness :
    2 < 8 ∧ slotHit slots0 eid1 2 ∧ ∀ j, j < 2 → slotSkip slots0 eid1 j :=
  (C5_topology_scan_resolution slots0 eid1).1 2 (by decide)

/-- C6: for every mapping index (within the defined range of the C `int`
shift, `0 ≤ index ≤ 30`), the vendor payload built for an export carries
version tag V1, the on-chip locality flag set to true, and a mask with
exactly one bit set, at position `mapping_index`; the build fails with
`EINVAL` if the encoded size exceeds the fixed maximum payload length. -/
theorem C6_vendor_payload_shape (m maxLen : Nat) :
    (m ≤ 30 → sizeof_hisi_ummu_tdev_info ≤ maxLen →
      init_vendor_info m true maxLen
        = .ok (⟨HISI_TDEV_INFO_V1, true, 2 ^ m⟩, sizeof_hisi_ummu_tdev_info)
      ∧ ∀ j, Nat.testBit (2 ^ m) j = true ↔ j = m)
    ∧ (maxLen < sizeof_hisi_ummu_tdev_info →
        init_vendor_info m true maxLen = .error EINVAL) := by
  constructor
  · intro hm hlen
    constructor
    · unfold init_vendor_info
      rw [if_neg (by simp), if_neg (not_lt.mpr hlen)]
      have hmask : (1 <<< m) % 2 ^ 64 = 2 ^ m := by
        rw [Nat.shiftLeft_eq, one_mul]
        exact Nat.mod_eq_of_lt (Nat.pow_lt_pow_right (by norm_num) (by omega))
      rw [hmask]
    · intro j
      constructor
      · intro hb
        by_contra hne
        rw [Nat.testBit_two_pow_of_ne (fun he => hne he.symm)] at hb
        exact Bool.noConfusion hb
      · intro he
        subst he
        exact Nat.testBit_two_pow_self
  · intro hlt
    unfold init_vendor_info
    rw [if_neg (by simp), if_pos hlt]

/-- Witness for C6 at mapping index 3: the payload is V1, on-chip, with
mask `0b1000 = 8`, matching the spec scenario. -/
theorem C6_vendor_payload_shape_witness :
    init_vendor_info 3 true 64
      = .ok (⟨HISI_TDEV_INFO_V1, true, 8⟩, sizeof_hisi_ummu_tdev_info)
    ∧ (Nat.testBit 8 3 = true ↔ 3 = 3) :=
  ⟨((C6_vendor_payload_shape 3 64).1 (by decide) (by decide)).1,
   ((C6_vendor_payload_shape 3 64).1 (by decide) (by decide)).2 3⟩

/-- C9: for every flags value and prior errno, `obmm_unexport` and
`obmm_unimport` called with the reserved invalid mem_id sentinel return
−1 with `errno = EINVAL` and an empty interaction trace: the device
handle is neither obtained nor called. -/
theorem C9_teardown_sentinel_rejected (env : Env) (flags e0 : Nat) :
    obmm_unexport env OBMM_INVALID_MEMID flags e0 = ⟨-1, EINVAL, []⟩
    ∧ obmm_unimport env OBMM_INVALID_MEMID flags e0 = ⟨-1, EINVAL, []⟩ :=
  ⟨rfl, rfl⟩

/-- C7: every export call (`obmm_export_useraddr` and `obmm_export`) whose
descriptor's destination endpoint id is the all-zero sentinel fails local
validation with `EINVAL` and the invalid mem_id sentinel; the trace holds
only the device-handle lookup — no controller-slot scan and no device
transaction is attempted. -/
theorem C7_export_zero_deid_rejected (env : Env) (pid : Int)
    (va len flags : Nat) (lens : List Nat) (d : MemDesc) (e0 : Nat)
    (hz : d.deid = zeroEid) (hfd : ¬ env.fdResult < 0) :
    obmm_export_useraddr env pid va len flags (some d) e0
      = ⟨OBMM_INVALID_MEMID, EINVAL, some d, [Ev.getFd]⟩
    ∧ obmm_export env (some lens) flags (some d) e0
      = ⟨OBMM_INVALID_MEMID, EINVAL, some d, [Ev.getFd]⟩
    ∧ Ev.topoScan ∉ [Ev.getFd] ∧ Ev.ioctl ∉ [Ev.getFd] := by
  have hv := vendor_adapt_export_zero_deid env d hz
  refine ⟨?_, ?_, by decide, by decide⟩
  · simp only [obmm_export_useraddr]
    rw [if_neg hfd, if_pos (by rw [hv]; decide)]
    rw [hv]
  · simp only [obmm_export]
    rw [if_neg hfd, if_pos (by rw [hv]; decide)]
    rw [hv]

/-- Witness for C7 at a concrete environment and descriptor. -/
theorem C7_export_zero_deid_rejected_witness :
    obmm_export envOK (some [4096]) 0 (some { desc5 with deid := zeroEid }) 0
      = ⟨OBMM_INVALID_MEMID, EINVAL, some { desc5 with deid := zeroEid }, [Ev.getFd]⟩ :=
  (C7_export_zero_deid_rejected envOK 0 0 4096 0 [4096]
    { desc5 with deid := zeroEid } 0 rfl (by decide)).2.1

/-- C8: on every successful `obmm_export` with per-NUMA length list
`lens` (zero entries allowed, 64-bit accumulation not overflowing), the
descriptor's `length` field equals the sum of all entries of `lens`. -/
theorem C8_export_length_is_sum (env : Env) (lens : List Nat) (d : MemDesc)
    (flags e0 : Nat) (hfd : ¬ env.fdResult < 0)
    (hv : (vendor_adapt_export env d).ret = 0) (hio : ¬ env.ioctlRet < 0)
    (hsum : lens.sum < 2 ^ 64) :
    (obmm_export env (some lens) flags (some d) e0).descOut.map MemDesc.length
      = some lens.sum
    ∧ (obmm_export env (some lens) flags (some d) e0).memid = env.devMemId := by
  simp only [obmm_export]
  rw [if_neg hfd, if_neg (by rw [hv]; decide), if_neg hio]
  refine ⟨?_, rfl⟩
  show (some (lens.sum % 2 ^ 64) : Option Nat) = some lens.sum
  rw [Nat.mod_eq_of_lt hsum]

/-- Witness for C8: exporting lengths `[4096, 0]` in the all-success
environment yields descriptor length 4096. -/
theorem C8_export_length_is_sum_witness :
    (obmm_export envOK (some [4096, 0]) 0 (some desc5) 0).descOut.map MemDesc.length
      = some ([4096, 0].sum)
    ∧ (obmm_export envOK (some [4096, 0]) 0 (some desc5) 0).memid = envOK.devMemId :=
  C8_export_length_is_sum envOK [4096, 0] desc5 0 0 (by decide) (by decide)
    (by decide) (by decide)

/-- Counterexample to C2: in `obmm_export_useraddr` the errno of the
failed device transaction (5) is **not** restored after the vendor-payload
release — the caller observes the value the release left behind (12). -/
theorem C2_counterexample_useraddr_errno :
    (obmm_export_useraddr envFreeClobber 0 0 4096 0 (some desc5) 0).errno = 12
    ∧ envFreeClobber.ioctlErrno = 5
    ∧ (obmm_export_useraddr envFreeClobber 0 0 4096 0 (some desc5) 0).memid
        = OBMM_INVALID_MEMID
    ∧ Ev.freeV ∈ (obmm_export_useraddr envFreeClobber 0 0 4096 0 (some desc5) 0).trace := by
  refine ⟨rfl, rfl, rfl, by decide⟩

/-- C2 (amended): in both export paths the vendor payload is released
unconditionally after the device transaction — on success and on failure —
and in `obmm_export` (only) the errno produced by the transaction is
captured before the release and restored after it, independent of any
errno the release would set. -/
theorem C2_export_release_and_errno (env : Env) (pid : Int)
    (va len flags : Nat) (lens : List Nat) (d : MemDesc) (e0 : Nat)
    (hfd : ¬ env.fdResult < 0) (hv : (vendor_adapt_export env d).ret = 0) :
    Ev.freeV ∈ (obmm_export_useraddr env pid va len flags (some d) e0).trace
    ∧ Ev.freeV ∈ (obmm_export env (some lens) flags (some d) e0).trace
    ∧ (obmm_export env (some lens) flags (some d) e0).errno
        = (if env.ioctlRet < 0 then env.ioctlErrno else env.fdErrno) := by
  have hu : (obmm_export_useraddr env pid va len flags (some d) e0).trace
      = Ev.getFd :: (vendor_adapt_export env d).trace ++ [Ev.ioctl, Ev.freeV] := by
    simp only [obmm_export_useraddr]
    rw [if_neg hfd, if_neg (by rw [hv]; decide)]
    by_cases hio : env.ioctlRet < 0
    · rw [if_pos hio]
    · rw [if_neg hio]
  have he : (obmm_export env (some lens) flags (some d) e0).trace
        = Ev.getFd :: (vendor_adapt_export env d).trace ++ [Ev.ioctl, Ev.freeV]
      ∧ (obmm_export env (some lens) flags (some d) e0).errno
        = (if env.ioctlRet < 0 then env.ioctlErrno else env.fdErrno) := by
    simp only [obmm_export]
    rw [if_neg hfd, if_neg (by rw [hv]; decide)]
    by_cases hio : env.ioctlRet < 0
    · rw [if_pos hio, if_pos hio]
      exact ⟨rfl, rfl⟩
    · rw [if_neg hio, if_neg hio]
      exact ⟨rfl, rfl⟩
  refine ⟨?_, ?_, he.2⟩
  · rw [hu]
    simp
  · rw [he.1]
    simp

/-- Witness for C2 (amended) in the all-success environment. -/
theorem C2_export_release_and_errno_witness :
    Ev.freeV ∈ (obmm_export_useraddr envOK 0 0 4096 0 (some desc5) 0).trace
    ∧ Ev.freeV ∈ (obmm_export envOK (some [4096]) 0 (some desc5) 0).trace
    ∧ (obmm_export envOK (some [4096]) 0 (some desc5) 0).errno
        = (if envOK.ioctlRet < 0 then envOK.ioctlErrno else envOK.fdErrno) :=
  C2_export_release_and_errno envOK 0 0 4096 0 [4096] desc5 0
    (by decide) (by decide)

/-- Counterexample to C4: on a successful export the descriptor's
`scna`/`dcna` fields do **not** keep their prior values (5 and 6) — both
are zeroed. -/
theorem C4_counterexample_cna_zeroed :
    (obmm_export envOK (some [4096, 0]) 5 (some desc5) 0).memid = 42
    ∧ desc5.scna = 5 ∧ desc5.dcna = 6
    ∧ (obmm_export envOK (some [4096, 0]) 5 (some desc5) 0).descOut.map MemDesc.scna
        = some 0
    ∧ (obmm_export envOK (some [4096, 0]) 5 (some desc5) 0).descOut.map MemDesc.dcna
        = some 0 :=
  ⟨rfl, rfl, rfl, rfl, rfl⟩

/-- C4 (amended): on every successful export (`obmm_export_useraddr` and
`obmm_export`) the mutated descriptor fields are exactly `addr`, `length`,
`tokenid`, `scna` and `dcna` — the latter two are set to 0 — while `seid`,
`deid`, `priv_len` and the private bytes keep their prior values. -/
theorem C4_export_descriptor_frame (env : Env) (pid : Int)
    (va len flags : Nat) (lens : List Nat) (d : MemDesc) (e0 : Nat)
    (hfd : ¬ env.fdResult < 0) (hv : (vendor_adapt_export env d).ret = 0)
    (hio : ¬ env.ioctlRet < 0) :
    (∃ d', (obmm_export_useraddr env pid va len flags (some d) e0).descOut = some d'
      ∧ d'.seid = d.seid ∧ d'.deid = d.deid ∧ d'.priv_len = d.priv_len
      ∧ d'.priv = d.priv ∧ d'.scna = 0 ∧ d'.dcna = 0
      ∧ d'.addr = env.devUba ∧ d'.length = len ∧ d'.tokenid = env.devTokenid)
    ∧ (∃ d', (obmm_export env (some lens) flags (some d) e0).descOut = some d'
      ∧ d'.seid = d.seid ∧ d'.deid = d.deid ∧ d'.priv_len = d.priv_len
      ∧ d'.priv = d.priv ∧ d'.scna = 0 ∧ d'.dcna = 0
      ∧ d'.addr = env.devUba ∧ d'.length = lens.sum % 2 ^ 64
      ∧ d'.tokenid = env.devTokenid) := by
  constructor
  · have hout : (obmm_export_useraddr env pid va len flags (some d) e0).descOut
        = some { d with addr := env.devUba, length := len, tokenid := env.devTokenid, scna := 0, dcna := 0 } := by
      simp only [obmm_export_useraddr]
      rw [if_neg hfd, if_neg (by rw [hv]; decide), if_neg hio]
    exact ⟨_, hout, rfl, rfl, rfl, rfl, rfl, rfl, rfl, rfl, rfl⟩
  · have hout : (obmm_export env (some lens) flags (some d) e0).descOut
        = some { d with addr := env.devUba, tokenid := env.devTokenid, scna := 0, dcna := 0, length := lens.sum % 2 ^ 64 } := by
      simp only [obmm_export]
      rw [if_neg hfd, if_neg (by rw [hv]; decide), if_neg hio]
    exact ⟨_, hout, rfl, rfl, rfl, rfl, rfl, rfl, rfl, rfl, rfl⟩

/-- Witness for C4 (amended) in the all-success environment. -/
theorem C4_export_descriptor_frame_witness :
    ∃ d', (obmm_export_useraddr envOK 0 0 4096 0 (some desc5) 0).descOut = some d'
      ∧ d'.seid = desc5.seid ∧ d'.deid = desc5.deid ∧ d'.priv_len = desc5.priv_len
      ∧ d'.priv = desc5.priv ∧ d'.scna = 0 ∧ d'.dcna = 0
      ∧ d'.addr = envOK.devUba ∧ d'.length = 4096 ∧ d'.tokenid = envOK.devTokenid :=
  (C4_export_descriptor_frame envOK 0 0 4096 0 [4096] desc5 0
    (by decide) (by decide) (by decide)).1

/-- C1: for every `obmm_import` call with a non-null descriptor: when
flags have NUMA-remote set and preimport unset and the base distance lies
outside `[0, 255]`, the call is rejected with `EINVAL` and the invalid
mem_id sentinel before any device interaction (empty trace); otherwise
(device handle available) the call validates channels: with the live
primary channel of the source endpoint id resolved to `cna`, a mismatch
with the descriptor's `scna` fails with `errno = ENODEV` and the invalid
sentinel before the device transaction (no ioctl in the trace), and
equality lets the call proceed to the device transaction. -/
theorem C1_import_validation (env : Env) (d : MemDesc) (flags : ImportFlags)
    (base_dist : Int) (numa0 : Option Int) (e0 : Nat) :
    ((flags.numaRemote = true ∧ flags.preimport = false) ∧
        (base_dist < 0 ∨ base_dist > 255) →
      obmm_import env (some d) flags base_dist numa0 e0
        = ⟨OBMM_INVALID_MEMID, EINVAL, numa0, []⟩)
    ∧ (¬ ((flags.numaRemote = true ∧ flags.preimport = false) ∧
          (base_dist < 0 ∨ base_dist > 255)) → ¬ env.fdResult < 0 →
        ∀ cna, get_primary_cna_by_eid env d.seid = some cna →
          (cna ≠ d.scna →
            obmm_import env (some d) flags base_dist numa0 e0
              = ⟨OBMM_INVALID_MEMID, ENODEV, numa0, [Ev.getFd, Ev.topoScan]⟩)
          ∧ (cna = d.scna →
            Ev.ioctl ∈ (obmm_import env (some d) flags base_dist numa0 e0).trace)) := by
  constructor
  · intro hrej
    simp only [obmm_import]
    rw [if_pos hrej]
  · intro hrej hfd cna hcna
    constructor
    · intro hne
      simp only [obmm_import]
      rw [if_neg hrej, if_neg hfd]
      simp only [hcna]
      rw [if_pos hne]
    · intro heq
      have htr : (obmm_import env (some d) flags base_dist numa0 e0).trace
          = [Ev.getFd, Ev.topoScan, Ev.ioctl] := by
        simp only [obmm_import]
        rw [if_neg hrej, if_neg hfd]
        simp only [hcna]
        rw [if_neg (by simp [heq])]
        by_cases hio : env.ioctlRet < 0
        · rw [if_pos hio]
        · rw [if_neg hio]
      rw [htr]
      decide

/-- Witness for C1: NUMA-remote without preimport and base distance −1 is
rejected locally with `EINVAL` and an empty trace. -/
theorem C1_import_validation_witness :
    obmm_import envOK (some desc5) ⟨true, false⟩ (-1) (some 3) 0
      = ⟨OBMM_INVALID_MEMID, EINVAL, some 3, []⟩ :=
  (C1_import_validation envOK desc5 ⟨true, false⟩ (-1) (some 3) 0).1
    ⟨⟨rfl, rfl⟩, Or.inl (by decide)⟩

/-- Counterexample to C3: (i) `obmm_preimport` rejects base distance −1
with `EINVAL` locally (empty trace) although the flags word is 0, i.e.
NUMA-remote is **not** set — the base-distance check is not gated on the
flags as it is in `obmm_import`; (ii) `obmm_unpreimport` proceeds straight
to the device transaction (trace `[getFd, ioctl]`, no topology scan)
although the live primary channel (7) differs from the descriptor's
recorded channel (9) — it performs no channel validation at all. -/
theorem C3_counterexample_preimport_validation :
    (obmm_preimport envOK (some infoBd) 0 0).ret = -1
    ∧ (obmm_preimport envOK (some infoBd) 0 0).errno = EINVAL
    ∧ (obmm_preimport envOK (some infoBd) 0 0).trace = []
    ∧ (obmm_unpreimport envOK (some infoMismatch) 0 0).trace = [Ev.getFd, Ev.ioctl]
    ∧ get_primary_cna_by_eid envOK infoMismatch.seid = some 7
    ∧ infoMismatch.scna = 9 := by
  refine ⟨rfl, rfl, rfl, rfl, by decide, rfl⟩

/-- C3 (amended): `obmm_preimport` rejects a base distance outside
`[0, 255]` locally with `EINVAL` for **every** flags value (the check is
unconditional, not gated on NUMA-remote/preimport flags as in
`obmm_import`), and performs the same channel validation as `obmm_import`
before the device call, failing with `ENODEV` on mismatch;
`obmm_unpreimport` performs **neither** the base-distance nor the channel
validation and goes straight to the device transaction. -/
theorem C3_preimport_validation (env : Env) (info : PreimportInfo)
    (flags e0 : Nat) :
    (info.base_dist < 0 ∨ info.base_dist > 255 →
      obmm_preimport env (some info) flags e0 = ⟨-1, EINVAL, some info, []⟩)
    ∧ (¬ (info.base_dist < 0 ∨ info.base_dist > 255) → ¬ env.fdResult < 0 →
        ∀ cna, get_primary_cna_by_eid env info.seid = some cna →
          (cna ≠ info.scna →
            obmm_preimport env (some info) flags e0
              = ⟨-1, ENODEV, some info, [Ev.getFd, Ev.topoScan]⟩)
          ∧ (cna = info.scna →
            Ev.ioctl ∈ (obmm_preimport env (some info) flags e0).trace))
    ∧ Ev.topoScan ∉ (obmm_unpreimport env (some info) flags e0).trace
    ∧ (¬ env.fdResult < 0 →
        (obmm_unpreimport env (some info) flags e0).trace = [Ev.getFd, Ev.ioctl]) := by
  refine ⟨?_, ?_, ?_, ?_⟩
  · intro hrej
    simp only [obmm_preimport]
    rw [if_pos hrej]
  · intro hrej hfd cna hcna
    constructor
    · intro hne
      simp only [obmm_preimport]
      rw [if_neg hrej, if_neg hfd]
      simp only [hcna]
      rw [if_pos hne]
    · intro heq
      have htr : (obmm_preimport env (some info) flags e0).trace
          = [Ev.getFd, Ev.topoScan, Ev.ioctl] := by
        simp only [obmm_preimport]
        rw [if_neg hrej, if_neg hfd]
        simp only [hcna]
        rw [if_neg (by simp [heq])]
        by_cases hio : env.ioctlRet < 0
        · rw [if_pos hio]
        · rw [if_neg hio]
      rw [htr]
      decide
  · simp only [obmm_unpreimport]
    by_cases hfd : env.fdResult < 0
    · rw [if_pos hfd]
      show Ev.topoScan ∉ [Ev.getFd]
      decide
    · rw [if_neg hfd]
      by_cases hio : env.ioctlRet < 0
      · rw [if_pos hio]
        show Ev.topoScan ∉ [Ev.getFd, Ev.ioctl]
        decide
      · rw [if_neg hio]
        show Ev.topoScan ∉ [Ev.getFd, Ev.ioctl]
        decide
  · intro hfd
    simp only [obmm_unpreimport]
    rw [if_neg hfd]
    by_cases hio : env.ioctlRet < 0
    · rw [if_pos hio]
    · rw [if_neg hio]

/-- Witness for C3 (amended): base distance −1 is rejected locally for
flags 77. -/
theorem C3_preimport_validation_witness :
    obmm_preimport envOK (some infoBd) 77 0 = ⟨-1, EINVAL, some infoBd, []⟩ :=
  (C3_preimport_validation envOK infoBd 77 0).1 (Or.inl (by decide))

/-- C10: output locations are written only on success.  A failed
`obmm_import` — one that never issues the device transaction, or whose
transaction returns negative — leaves the `numa` out-pointer with its
prior content; a failed `obmm_preimport` likewise leaves the caller's
preimport info unchanged; the two query calls write their out-pointers
only when the device handle and the transaction both succeed, and
tolerate NULL out-pointers (never writing through them). -/
theorem C10_outputs_written_only_on_success (env : Env)
    (desc? : Option MemDesc) (flags : ImportFlags) (base_dist : Int)
    (numa0 : Option Int) (info? : Option PreimportInfo) (pflags : Nat)
    (pa qid qoff : Nat) (id? off? pa? : Option Nat) (e0 : Nat) :
    (env.ioctlRet < 0 ∨ Ev.ioctl ∉ (obmm_import env desc? flags base_dist numa0 e0).trace →
      (obmm_import env desc? flags base_dist numa0 e0).numaOut = numa0)
    ∧ (env.ioctlRet < 0 ∨ Ev.ioctl ∉ (obmm_preimport env info? pflags e0).trace →
      (obmm_preimport env info? pflags e0).infoOut = info?)
    ∧ (env.fdResult < 0 ∨ env.ioctlRet < 0 →
      (obmm_query_memid_by_pa env pa id? off? e0).idOut = id?
      ∧ (obmm_query_memid_by_pa env pa id? off? e0).offOut = off?
      ∧ (obmm_query_pa_by_memid env qid qoff pa? e0).paOut = pa?)
    ∧ (obmm_query_memid_by_pa env pa none off? e0).idOut = none
    ∧ (obmm_query_memid_by_pa env pa id? none e0).offOut = none
    ∧ (obmm_query_pa_by_memid env qid qoff none e0).paOut = none := by
  refine ⟨?_, ?_, ?_, ?_, ?_, ?_⟩
  · intro h
    cases desc? with
    | none => rfl
    | some d =>
      by_cases h1 : (flags.numaRemote = true ∧ flags.preimport = false) ∧
          (base_dist < 0 ∨ base_dist > 255)
      · simp only [obmm_import]
        rw [if_pos h1]
      · by_cases h2 : env.fdResult < 0
        · simp only [obmm_import]
          rw [if_neg h1, if_pos h2]
        · cases hp : get_primary_cna_by_eid env d.seid with
          | none =>
            simp only [obmm_import]
            rw [if_neg h1, if_neg h2]
            simp only [hp]
          | some cna =>
            by_cases h3 : cna ≠ d.scna
            · simp only [obmm_import]
              rw [if_neg h1, if_neg h2]
              simp only [hp]
              rw [if_pos h3]
            · by_cases h4 : env.ioctlRet < 0
              · simp only [obmm_import]
                rw [if_neg h1, if_neg h2]
                simp only [hp]
                rw [if_neg h3, if_pos h4]
              · exfalso
                have htr : (obmm_import env (some d) flags base_dist numa0 e0).trace
                    = [Ev.getFd, Ev.topoScan, Ev.ioctl] := by
                  simp only [obmm_import]
                  rw [if_neg h1, if_neg h2]
                  simp only [hp]
                  rw [if_neg h3, if_neg h4]
                rcases h with hio | hni
                · exact h4 hio
                · rw [htr] at hni
                  exact hni (by decide)
  · intro h
    cases info? with
    | none => rfl
    | some info =>
      by_cases h1 : info.base_dist < 0 ∨ info.base_dist > 255
      · simp only [obmm_preimport]
        rw [if_pos h1]
      · by_cases h2 : env.fdResult < 0
        · simp only [obmm_preimport]
          rw [if_neg h1, if_pos h2]
        · cases hp : get_primary_cna_by_eid env info.seid with
          | none =>
            simp only [obmm_preimport]
            rw [if_neg h1, if_neg h2]
            simp only [hp]
          | some cna =>
            by_cases h3 : cna ≠ info.scna
            · simp only [obmm_preimport]
              rw [if_neg h1, if_neg h2]
              simp only [hp]
              rw [if_pos h3]
            · by_cases h4 : env.ioctlRet < 0
              · simp only [obmm_preimport]
                rw [if_neg h1, if_neg h2]
                simp only [hp]
                rw [if_neg h3, if_pos h4]
              · exfalso
                have htr : (obmm_preimport env (some info) pflags e0).trace
                    = [Ev.getFd, Ev.topoScan, Ev.ioctl] := by
                  simp only [obmm_preimport]
                  rw [if_neg h1, if_neg h2]
                  simp only [hp]
                  rw [if_neg h3, if_neg h4]
                rcases h with hio | hni
                · exact h4 hio
                · rw [htr] at hni
                  exact hni (by decide)
  · intro h
    by_cases h2 : env.fdResult < 0
    · simp only [obmm_query_memid_by_pa, obmm_query_pa_by_memid]
      rw [if_pos h2, if_pos h2]
      exact ⟨rfl, rfl, rfl⟩
    · rcases h with hfd | hio
      · exact absurd hfd h2
      · simp only [obmm_query_memid_by_pa, obmm_query_pa_by_memid]
        rw [if_neg h2, if_neg h2, if_pos hio, if_pos hio]
        exact ⟨rfl, rfl, rfl⟩
  · simp only [obmm_query_memid_by_pa]
    by_cases h2 : env.fdResult < 0
    · rw [if_pos h2]
    · rw [if_neg h2]
      by_cases h4 : env.ioctlRet < 0
      · rw [if_pos h4]
      · rw [if_neg h4]
        rfl
  · simp only [obmm_query_memid_by_pa]
    by_cases h2 : env.fdResult < 0
    · rw [if_pos h2]
    · rw [if_neg h2]
      by_cases h4 : env.ioctlRet < 0
      · rw [if_pos h4]
      · rw [if_neg h4]
        rfl
  · simp only [obmm_query_pa_by_memid]
    by_cases h2 : env.fdResult < 0
    · rw [if_pos h2]
    · rw [if_neg h2]
      by_cases h4 : env.ioctlRet < 0
      · rw [if_pos h4]
      · rw [if_neg h4]
        rfl

/-- Witness for C10: with a failing device transaction, the import call
leaves the `numa` out-pointer at its prior value 3. -/
theorem C10_outputs_written_only_on_success_witness :
    (obmm_import envIoctlFail (some descMatch) ⟨false, false⟩ 0 (some 3) 0).numaOut
      = some 3 :=
  (C10_outputs_written_only_on_success envIoctlFail (some descMatch) ⟨false, false⟩
    0 (some 3) (some infoBd) 0 0 0 0 (some 1) (some 2) (some 4) 0).1
    (Or.inl (by decide))

end Obmm
